import Mathlib

/-!
Verification of the booking engine of the Hotel-reservation-system repository
(`models.py`, `exceptions.py`, `hotel_service.py`).

Modelling choices of the shallow embedding:
* Python `datetime.date` values are modelled as `Int` day ordinals
  (`date` subtraction `(co - ci).days` becomes `Int` subtraction, comparison
  of dates becomes `Int` comparison).
* Python `float` prices are modelled as `Rat`; the code only multiplies a
  night count by a nightly price and sums such products.
* `uuid.uuid4()` generation of guest/booking ids is modelled by fresh-counter
  allocation (`nextGuestId`, `nextBookingId`): ids are `Nat` and each
  generated id is new.
* Python `Room` objects are mutable and shared: a `Booking` holds a reference
  to the very object stored in `hotel.rooms`, and `check_in`/`check_out`
  mutate the flag through that reference.  We model object identity with an
  allocation heap `roomHeap : List (Nat × Room)`; `rooms` maps a room number
  to a heap reference and a `Booking` stores the heap reference of its room.
  `heapGet` reads a heap cell, with an (unreachable for valid references)
  default object.
* Python `dict` iteration order is insertion order, modelled by lists with
  appended entries.
* A raised exception is an `Except.error`; every operation returns the
  resulting state next to the result, so that error branches show explicitly
  which state they leave behind.
-/

/-- Error hierarchy of `exceptions.py` (the subclasses used by the engine). -/
inductive HotelError where
  | entityNotFound (msg : String)
  | bookingConflict (msg : String)
  | invalidOperation (msg : String)
deriving Repr, DecidableEq

/-- `EntityNotFoundError` recogniser. -/
def HotelError.isNotFound : HotelError → Bool
  | .entityNotFound _ => true
  | _ => false

/-- `BookingConflictError` recogniser. -/
def HotelError.isConflict : HotelError → Bool
  | .bookingConflict _ => true
  | _ => false

/-- `InvalidOperationError` recogniser. -/
def HotelError.isInvalidOp : HotelError → Bool
  | .invalidOperation _ => true
  | _ => false

/-- `models.BookingStatus`: the four status strings as an enumeration. -/
inductive BookingStatus where
  | booked
  | checked_in
  | checked_out
  | cancelled
deriving Repr, DecidableEq

/-- The status string used in Python error messages. -/
def BookingStatus.str : BookingStatus → String
  | .booked => "booked"
  | .checked_in => "checked_in"
  | .checked_out => "checked_out"
  | .cancelled => "cancelled"

/-- `models.Room`: number, type, nightly price, occupancy flag. -/
structure Room where
  number : Int
  room_type : String
  price_per_night : Rat
  is_occupied : Bool
deriving Repr, DecidableEq

/-- `Room.__init__` validation: positive number, positive price, non-empty
type; otherwise `InvalidOperationError`. -/
def Room.create (number : Int) (room_type : String) (price_per_night : Rat)
    (is_occupied : Bool) : Except HotelError Room :=
  if number ≤ 0 then
    .error (.invalidOperation "Room number must be positive")
  else if price_per_night ≤ 0 then
    .error (.invalidOperation "Room price must be positive")
  else if room_type = "" then
    .error (.invalidOperation "Room type is required")
  else
    .ok ⟨number, room_type, price_per_night, is_occupied⟩

/-- `models.Guest` (ids are modelled as `Nat`, see module comment). -/
structure Guest where
  guest_id : Nat
  name : String
  contact : String
deriving Repr, DecidableEq

/-- `models.Booking`: `guest` and `room` are object references; the guest is
identified by its id and the room by its heap reference `roomRef`. -/
structure Booking where
  booking_id : Nat
  guest_id : Nat
  roomRef : Nat
  check_in : Int
  check_out : Int
  status : BookingStatus
deriving Repr, DecidableEq

/-- `hotel_service.Hotel`: the aggregate state, together with the allocation
heap for `Room` objects and the fresh-id counters. -/
structure Hotel where
  name : String
  roomHeap : List (Nat × Room)
  nextRef : Nat
  rooms : List (Int × Nat)
  guests : List Guest
  nextGuestId : Nat
  bookings : List Booking
  nextBookingId : Nat
deriving Repr, DecidableEq

/-- Dereference a heap cell; the default is never hit for references created
by `add_room`. -/
def heapGet (s : Hotel) (ref : Nat) : Room :=
  (((s.roomHeap.find? (fun p => p.1 = ref))).map (fun p => p.2)).getD
    ⟨0, "", 0, false⟩

/-- `number in self.rooms` membership test of the rooms dict. -/
def Hotel.hasRoomNumber (s : Hotel) (number : Int) : Bool :=
  (s.rooms.find? (fun p => p.1 = number)).isSome

/-- `Hotel.add_room`: reject duplicate numbers, validate via `Room.__init__`,
then store the fresh object under its number. -/
def Hotel.add_room (s : Hotel) (number : Int) (room_type : String)
    (price_per_night : Rat) : Except HotelError Room × Hotel :=
  if s.hasRoomNumber number then
    (.error (.invalidOperation ("Room " ++ toString number ++ " already exists")), s)
  else
    match Room.create number room_type price_per_night false with
    | .error e => (.error e, s)
    | .ok room =>
      (.ok room,
        { s with
          roomHeap := s.roomHeap ++ [(s.nextRef, room)]
          nextRef := s.nextRef + 1
          rooms := s.rooms ++ [(number, s.nextRef)] })

/-- `Hotel.remove_room`: absent number is `EntityNotFoundError`, occupied room
is `InvalidOperationError`, otherwise the dict entry is deleted (the object
itself stays on the heap, as in Python where bookings may still reference
it). -/
def Hotel.remove_room (s : Hotel) (number : Int) : Except HotelError Unit × Hotel :=
  match s.rooms.find? (fun p => p.1 = number) with
  | none =>
    (.error (.entityNotFound ("Room " ++ toString number ++ " does not exist")), s)
  | some p =>
    if (heapGet s p.2).is_occupied then
      (.error (.invalidOperation "Cannot remove occupied room"), s)
    else
      (.ok (), { s with rooms := s.rooms.filter (fun q => !(q.1 = number : Bool)) })

/-- `Hotel.get_room`: returns the reference to the stored `Room` object
(Python returns the object; object identity is the heap reference). -/
def Hotel.get_room (s : Hotel) (number : Int) : Except HotelError Nat :=
  match s.rooms.find? (fun p => p.1 = number) with
  | none =>
    .error (.entityNotFound ("Room " ++ toString number ++ " does not exist"))
  | some p => .ok p.2

namespace HotelService

/-- `HotelService.register_guest`: a fresh id is generated and the guest is
stored; `Guest.__post_init__` rejects empty name/contact (the generated id is
never empty). -/
def register_guest (s : Hotel) (name contact : String) :
    Except HotelError Guest × Hotel :=
  if name = "" then
    (.error (.invalidOperation "Guest name is required"), s)
  else if contact = "" then
    (.error (.invalidOperation "Guest contact is required"), s)
  else
    (.ok ⟨s.nextGuestId, name, contact⟩,
      { s with
        guests := s.guests ++ [⟨s.nextGuestId, name, contact⟩]
        nextGuestId := s.nextGuestId + 1 })

/-- `HotelService.get_guest`. -/
def get_guest (s : Hotel) (guest_id : Nat) : Except HotelError Guest :=
  match s.guests.find? (fun g => g.guest_id = guest_id) with
  | none =>
    .error (.entityNotFound ("Guest " ++ toString guest_id ++ " does not exist"))
  | some g => .ok g

/-- `HotelService.add_room` delegates to `Hotel.add_room`. -/
def add_room (s : Hotel) (number : Int) (room_type : String)
    (price_per_night : Rat) : Except HotelError Room × Hotel :=
  Hotel.add_room s number room_type price_per_night

/-- The body of the loop of `HotelService._room_is_available`: does this
booking block the candidate interval on `room`?  Mirrors the two `continue`
guards followed by the overlap test. -/
def bookingBlocks (s : Hotel) (room : Room) (check_in check_out : Int)
    (b : Booking) : Bool :=
  if (heapGet s b.roomRef).number ≠ room.number then false
  else if b.status = .cancelled ∨ b.status = .checked_out then false
  else if check_in < b.check_out ∧ b.check_in < check_out then true
  else false

/-- `HotelService._room_is_available`. -/
def room_is_available (s : Hotel) (room : Room) (check_in check_out : Int) :
    Bool :=
  !(s.bookings.any (bookingBlocks s room check_in check_out))

/-- `HotelService.get_booking`. -/
def get_booking (s : Hotel) (booking_id : Nat) : Except HotelError Booking :=
  match s.bookings.find? (fun b => b.booking_id = booking_id) with
  | none =>
    .error
      (.entityNotFound ("Booking " ++ toString booking_id ++ " does not exist"))
  | some b => .ok b

/-- `HotelService.create_booking`: look up guest and room, run the
availability check, then build the `Booking` (whose `__post_init__` rejects
`check_out <= check_in`) and append it under a fresh id. -/
def create_booking (s : Hotel) (guest_id : Nat) (room_number : Int)
    (check_in check_out : Int) : Except HotelError Booking × Hotel :=
  match get_guest s guest_id with
  | .error e => (.error e, s)
  | .ok _guest =>
    match Hotel.get_room s room_number with
    | .error e => (.error e, s)
    | .ok ref =>
      if !(room_is_available s (heapGet s ref) check_in check_out) then
        (.error (.bookingConflict
          ("Room " ++ toString room_number ++ " is not available for " ++
            toString check_in ++ " to " ++ toString check_out)), s)
      else if check_out ≤ check_in then
        (.error (.invalidOperation "check_out must be after check_in"), s)
      else
        (.ok ⟨s.nextBookingId, guest_id, ref, check_in, check_out, .booked⟩,
          { s with
            bookings :=
              s.bookings ++
                [⟨s.nextBookingId, guest_id, ref, check_in, check_out, .booked⟩]
            nextBookingId := s.nextBookingId + 1 })

/-- Mutate `booking.status` through the booking reference (the dict keeps the
same object, so the update is in place). -/
def setBookingStatus (s : Hotel) (booking_id : Nat) (st : BookingStatus) :
    Hotel :=
  { s with
    bookings := s.bookings.map (fun b =>
      if b.booking_id = booking_id then { b with status := st } else b) }

/-- Mutate `room.is_occupied` through the heap reference. -/
def setRoomOccupied (s : Hotel) (ref : Nat) (v : Bool) : Hotel :=
  { s with
    roomHeap := s.roomHeap.map (fun p =>
      if p.1 = ref then (p.1, { p.2 with is_occupied := v }) else p) }

/-- `HotelService.cancel_booking`: not-found error, no-op when already
cancelled, error when checked out, otherwise the status becomes cancelled. -/
def cancel_booking (s : Hotel) (booking_id : Nat) :
    Except HotelError Unit × Hotel :=
  match get_booking s booking_id with
  | .error e => (.error e, s)
  | .ok b =>
    if b.status = .cancelled then
      (.ok (), s)
    else if b.status = .checked_out then
      (.error (.invalidOperation "Cannot cancel checked-out booking"), s)
    else
      (.ok (), setBookingStatus s booking_id .cancelled)

/-- `HotelService.check_in`. -/
def check_in (s : Hotel) (booking_id : Nat) (current_date : Int) :
    Except HotelError Unit × Hotel :=
  match get_booking s booking_id with
  | .error e => (.error e, s)
  | .ok b =>
    if b.status ≠ .booked then
      (.error (.invalidOperation
        ("Cannot check-in: booking status is " ++ b.status.str)), s)
    else if current_date ≠ b.check_in then
      (.error (.invalidOperation
        ("Check-in date mismatch: expected " ++ toString b.check_in ++
          ", got " ++ toString current_date)), s)
    else if (heapGet s b.roomRef).is_occupied then
      (.error (.bookingConflict "Room is already occupied"), s)
    else
      (.ok (), setRoomOccupied (setBookingStatus s booking_id .checked_in)
        b.roomRef true)

/-- `Booking.nights_count`: `(check_out - check_in).days`. -/
def nights_count (b : Booking) : Int :=
  b.check_out - b.check_in

/-- `Booking.calculate_total_price`: nights times the referenced room's
nightly price (read through the reference). -/
def calculate_total_price (s : Hotel) (b : Booking) : Rat :=
  (nights_count b : Rat) * (heapGet s b.roomRef).price_per_night

/-- `HotelService.check_out`: on success the status becomes checked out, the
room is freed, and the total price is returned (computed, as in the source,
after the mutations — which do not touch the price). -/
def check_out (s : Hotel) (booking_id : Nat) (current_date : Int) :
    Except HotelError Rat × Hotel :=
  match get_booking s booking_id with
  | .error e => (.error e, s)
  | .ok b =>
    if b.status ≠ .checked_in then
      (.error (.invalidOperation
        ("Cannot check-out: booking status is " ++ b.status.str)), s)
    else if current_date ≠ b.check_out then
      (.error (.invalidOperation
        ("Check-out date mismatch: expected " ++ toString b.check_out ++
          ", got " ++ toString current_date)), s)
    else
      (.ok (calculate_total_price
          (setRoomOccupied (setBookingStatus s booking_id .checked_out)
            b.roomRef false) b),
        setRoomOccupied (setBookingStatus s booking_id .checked_out)
          b.roomRef false)

/-- `HotelService.calculate_total_revenue`: fold over the bookings dict,
adding the total price of every checked-out booking. -/
def calculate_total_revenue (s : Hotel) : Rat :=
  s.bookings.foldl (fun total b =>
    if b.status = .checked_out then total + calculate_total_price s b
    else total) 0

end HotelService

/-- `Hotel.__init__` with an empty hotel (name validation: non-empty). -/
def Hotel.init (name : String) : Except HotelError Hotel :=
  if name = "" then
    .error (.invalidOperation "Hotel name is required")
  else
    .ok ⟨name, [], 0, [], [], 0, [], 0⟩

/-- The call raised a `BookingConflictError`. -/
def raisesConflict {α : Type} : Except HotelError α → Bool
  | .error e => e.isConflict
  | .ok _ => false

/-- The call raised an `InvalidOperationError`. -/
def raisesInvalidOp {α : Type} : Except HotelError α → Bool
  | .error e => e.isInvalidOp
  | .ok _ => false

/-- The call raised an `EntityNotFoundError`. -/
def raisesNotFound {α : Type} : Except HotelError α → Bool
  | .error e => e.isNotFound
  | .ok _ => false

/-- The call returned normally. -/
def callSucceeds {α : Type} : Except HotelError α → Bool
  | .ok _ => true
  | .error _ => false

/-!  Concrete example states used by witnesses and counterexamples.
Dates use day ordinals with 2024-01-01 ↦ 0 (so 2024-01-03 ↦ 2). -/

/-- Empty hotel. -/
def exEmpty : Hotel := ⟨"Luxury Hotel", [], 0, [], [], 0, [], 0⟩

/-- Room 101 (single, 100.0/night) at heap ref 0, guest John with id 0. -/
def exBase : Hotel :=
  ⟨"Luxury Hotel", [(0, ⟨101, "single", 100, false⟩)], 1, [(101, 0)],
    [⟨0, "John", "john@example.com"⟩], 1, [], 0⟩

/-- `exBase` plus booking 0: John in room 101, 2024-01-01 to 2024-01-03. -/
def exBooked : Hotel :=
  ⟨"Luxury Hotel", [(0, ⟨101, "single", 100, false⟩)], 1, [(101, 0)],
    [⟨0, "John", "john@example.com"⟩], 1, [⟨0, 0, 0, 0, 2, .booked⟩], 1⟩

/-- `exBooked` after check-in on 2024-01-01: status checked_in, room occupied. -/
def exCheckedIn : Hotel :=
  ⟨"Luxury Hotel", [(0, ⟨101, "single", 100, true⟩)], 1, [(101, 0)],
    [⟨0, "John", "john@example.com"⟩], 1, [⟨0, 0, 0, 0, 2, .checked_in⟩], 1⟩

/-- Room 101 with an active booking over the long interval [0, 10). -/
def exOverlap : Hotel :=
  ⟨"Luxury Hotel", [(0, ⟨101, "single", 100, false⟩)], 1, [(101, 0)],
    [⟨0, "John", "john@example.com"⟩], 1, [⟨0, 0, 0, 0, 10, .booked⟩], 1⟩

/-- One checked-out booking (2 nights at 100.0) and one still-booked booking. -/
def exRevenue : Hotel :=
  ⟨"Luxury Hotel", [(0, ⟨101, "single", 100, false⟩)], 1, [(101, 0)],
    [⟨0, "John", "john@example.com"⟩], 1,
    [⟨0, 0, 0, 0, 2, .checked_out⟩, ⟨1, 0, 0, 5, 8, .booked⟩], 2⟩

/-!  Helper lemmas about the state-mutation primitives. -/

/-- `find?` on a booking list mapped by a status update is the status update
of the original `find?` (the update preserves `booking_id`). -/
theorem find?_map_statusUpdate (l : List Booking) (bid q : Nat)
    (st : BookingStatus) :
    (l.map (fun b =>
        if b.booking_id = bid then { b with status := st } else b)).find?
        (fun b => b.booking_id = q) =
      (l.find? (fun b => b.booking_id = q)).map (fun b =>
        if b.booking_id = bid then { b with status := st } else b) := by
  rw [List.find?_map]
  have hpred : ((fun b : Booking => decide (b.booking_id = q)) ∘
      (fun b : Booking =>
        if b.booking_id = bid then { b with status := st } else b)) =
      (fun b : Booking => decide (b.booking_id = q)) := by
    funext b
    by_cases h : b.booking_id = bid <;> simp [h]
  rw [hpred]

/-- `get_booking` is unchanged by `setRoomOccupied`. -/
theorem get_booking_setRoomOccupied (s : Hotel) (ref : Nat) (v : Bool)
    (q : Nat) :
    HotelService.get_booking (HotelService.setRoomOccupied s ref v) q =
      HotelService.get_booking s q := rfl

/-- `heapGet` is unchanged by `setBookingStatus`. -/
theorem heapGet_setBookingStatus (s : Hotel) (bid : Nat) (st : BookingStatus)
    (q : Nat) :
    heapGet (HotelService.setBookingStatus s bid st) q = heapGet s q := rfl

/-- `get_booking` after `setBookingStatus`: the looked-up booking gets the
same update applied. -/
theorem get_booking_setBookingStatus (s : Hotel) (bid : Nat)
    (st : BookingStatus) (q : Nat) :
    HotelService.get_booking (HotelService.setBookingStatus s bid st) q =
      (HotelService.get_booking s q).map (fun b =>
        if b.booking_id = bid then { b with status := st } else b) := by
  unfold HotelService.get_booking HotelService.setBookingStatus
  rw [find?_map_statusUpdate]
  cases h : s.bookings.find? (fun b => b.booking_id = q) <;>
    simp [Except.map]

/-- The key of a heap cell found by key search is that key. -/
theorem heapFind_key (s : Hotel) (ref : Nat) (p : Nat × Room)
    (h : s.roomHeap.find? (fun q => q.1 = ref) = some p) : p.1 = ref := by
  have := List.find?_some h
  simpa using this

/-- `heapGet` at a different reference is unchanged by `setRoomOccupied`. -/
theorem heapGet_setRoomOccupied_ne (s : Hotel) (ref : Nat) (v : Bool)
    (q : Nat) (hq : q ≠ ref) :
    heapGet (HotelService.setRoomOccupied s ref v) q = heapGet s q := by
  unfold heapGet HotelService.setRoomOccupied
  simp only [List.find?_map]
  have hpred : ((fun p : Nat × Room => decide (p.1 = q)) ∘ (fun p : Nat × Room =>
      if p.1 = ref then (p.1, { p.2 with is_occupied := v }) else p)) =
      (fun p : Nat × Room => decide (p.1 = q)) := by
    funext p
    by_cases h : p.1 = ref <;> simp [h]
  rw [hpred]
  cases h : s.roomHeap.find? (fun p : Nat × Room => decide (p.1 = q)) with
  | none => simp
  | some p =>
    have hp : p.1 = q := by simpa using List.find?_some h
    have hne : ¬(p.1 = ref) := by rw [hp]; exact hq
    simp [hne]

/-- `heapGet` at the updated reference: only the occupancy flag changes (when
the cell exists; otherwise both sides are the default object). -/
theorem heapGet_setRoomOccupied_self (s : Hotel) (ref : Nat) (v : Bool)
    (h : (s.roomHeap.find? (fun p => p.1 = ref)).isSome = true) :
    heapGet (HotelService.setRoomOccupied s ref v) ref =
      { heapGet s ref with is_occupied := v } := by
  unfold heapGet HotelService.setRoomOccupied
  simp only [List.find?_map]
  have hpred : ((fun p : Nat × Room => decide (p.1 = ref)) ∘ (fun p : Nat × Room =>
      if p.1 = ref then (p.1, { p.2 with is_occupied := v }) else p)) =
      (fun p : Nat × Room => decide (p.1 = ref)) := by
    funext p
    by_cases hh : p.1 = ref <;> simp [hh]
  rw [hpred]
  obtain ⟨p, hp⟩ := Option.isSome_iff_exists.mp h
  have hkey : p.1 = ref := by simpa using List.find?_some hp
  simp [hp, hkey]

/-- After `setRoomOccupied _ _ false` the flag read back is `false`, cell
present or not (the default object is unoccupied). -/
theorem heapGet_setRoomOccupied_false (s : Hotel) (ref : Nat) :
    (heapGet (HotelService.setRoomOccupied s ref false) ref).is_occupied =
      false := by
  by_cases h : (s.roomHeap.find? (fun p => p.1 = ref)).isSome = true
  · rw [heapGet_setRoomOccupied_self s ref false h]
  · unfold heapGet HotelService.setRoomOccupied
    simp only [List.find?_map]
    have hpred : ((fun p : Nat × Room => decide (p.1 = ref)) ∘
        (fun p : Nat × Room =>
          if p.1 = ref then (p.1, { p.2 with is_occupied := false }) else p)) =
        (fun p : Nat × Room => decide (p.1 = ref)) := by
      funext p
      by_cases hh : p.1 = ref <;> simp [hh]
    rw [hpred]
    rw [Option.not_isSome_iff_eq_none] at h
    simp [h]

/-- `setRoomOccupied` never changes the nightly price of any cell. -/
theorem heapGet_setRoomOccupied_price (s : Hotel) (ref : Nat) (v : Bool)
    (q : Nat) :
    (heapGet (HotelService.setRoomOccupied s ref v) q).price_per_night =
      (heapGet s q).price_per_night := by
  by_cases hq : q = ref
  · subst hq
    by_cases h : (s.roomHeap.find? (fun p => p.1 = q)).isSome = true
    · rw [heapGet_setRoomOccupied_self s q v h]
    · unfold heapGet HotelService.setRoomOccupied
      simp only [List.find?_map]
      have hpred : ((fun p : Nat × Room => decide (p.1 = q)) ∘
          (fun p : Nat × Room =>
            if p.1 = q then (p.1, { p.2 with is_occupied := v }) else p)) =
          (fun p : Nat × Room => decide (p.1 = q)) := by
        funext p
        by_cases hh : p.1 = q <;> simp [hh]
      rw [hpred]
      rw [Option.not_isSome_iff_eq_none] at h
      simp [h]
  · rw [heapGet_setRoomOccupied_ne s ref v q hq]

/-- Unfolding of the loop-body test `bookingBlocks` into a proposition. -/
theorem bookingBlocks_iff (s : Hotel) (room : Room) (ci co : Int)
    (b : Booking) :
    HotelService.bookingBlocks s room ci co b = true ↔
      ((heapGet s b.roomRef).number = room.number ∧
        b.status ≠ .cancelled ∧ b.status ≠ .checked_out ∧
        ci < b.check_out ∧ b.check_in < co) := by
  unfold HotelService.bookingBlocks
  by_cases h1 : (heapGet s b.roomRef).number = room.number <;>
    by_cases h2 : b.status = .cancelled ∨ b.status = .checked_out <;>
      by_cases h3 : ci < b.check_out ∧ b.check_in < co <;>
        push_neg at h2 h3 <;> simp_all <;> try tauto

/-- `room_is_available` is false exactly when some stored booking blocks the
candidate interval. -/
theorem room_is_available_iff (s : Hotel) (room : Room) (ci co : Int) :
    HotelService.room_is_available s room ci co = false ↔
      ∃ b ∈ s.bookings,
        (heapGet s b.roomRef).number = room.number ∧
        b.status ≠ .cancelled ∧ b.status ≠ .checked_out ∧
        ci < b.check_out ∧ b.check_in < co := by
  unfold HotelService.room_is_available
  rw [Bool.not_eq_false', List.any_eq_true]
  constructor
  · rintro ⟨b, hb, hblock⟩
    exact ⟨b, hb, (bookingBlocks_iff s room ci co b).mp hblock⟩
  · rintro ⟨b, hb, hprop⟩
    exact ⟨b, hb, (bookingBlocks_iff s room ci co b).mpr hprop⟩

/-- Evaluation of `create_booking` once guest and room lookups succeed. -/
theorem create_booking_eval (s : Hotel) (guest_id : Nat) (room_number : Int)
    (ci co : Int) (g : Guest) (ref : Nat)
    (hg : HotelService.get_guest s guest_id = .ok g)
    (hr : Hotel.get_room s room_number = .ok ref) :
    HotelService.create_booking s guest_id room_number ci co =
      if HotelService.room_is_available s (heapGet s ref) ci co = false then
        (.error (.bookingConflict
          ("Room " ++ toString room_number ++ " is not available for " ++
            toString ci ++ " to " ++ toString co)), s)
      else if co ≤ ci then
        (.error (.invalidOperation "check_out must be after check_in"), s)
      else
        (.ok ⟨s.nextBookingId, guest_id, ref, ci, co, .booked⟩,
          { s with
            bookings :=
              s.bookings ++
                [⟨s.nextBookingId, guest_id, ref, ci, co, .booked⟩]
            nextBookingId := s.nextBookingId + 1 }) := by
  unfold HotelService.create_booking
  rw [hg, hr]
  by_cases hav : HotelService.room_is_available s (heapGet s ref) ci co <;>
    simp [hav]

/-- C1: `create_booking` raises `BookingConflict` iff some existing booking on
the same room, with status neither cancelled nor checked_out, overlaps the
half-open candidate interval (`ci < b.check_out` and `b.check_in < co`); when
every such booking merely abuts or is disjoint from the candidate interval
(and the interval is non-empty) the creation succeeds. -/
theorem C1_create_booking_conflict_iff (s : Hotel) (guest_id : Nat)
    (room_number : Int) (ci co : Int) (g : Guest) (ref : Nat)
    (hg : HotelService.get_guest s guest_id = .ok g)
    (hr : Hotel.get_room s room_number = .ok ref) :
    (raisesConflict
        (HotelService.create_booking s guest_id room_number ci co).1 = true ↔
      ∃ b ∈ s.bookings,
        (heapGet s b.roomRef).number = (heapGet s ref).number ∧
        b.status ≠ .cancelled ∧ b.status ≠ .checked_out ∧
        ci < b.check_out ∧ b.check_in < co) ∧
    ((∀ b ∈ s.bookings,
        (heapGet s b.roomRef).number = (heapGet s ref).number →
        b.status ≠ .cancelled → b.status ≠ .checked_out →
        co ≤ b.check_in ∨ b.check_out ≤ ci) → ci < co →
      callSucceeds
        (HotelService.create_booking s guest_id room_number ci co).1 = true) := by
  rw [create_booking_eval s guest_id room_number ci co g ref hg hr]
  constructor
  · by_cases hav :
      HotelService.room_is_available s (heapGet s ref) ci co = false
    · rw [if_pos hav]
      simp only [raisesConflict, HotelError.isConflict]
      exact iff_of_true trivial
        ((room_is_available_iff s (heapGet s ref) ci co).mp hav)
    · rw [if_neg hav]
      have hfalse : ∀ b ∈ s.bookings,
          ¬((heapGet s b.roomRef).number = (heapGet s ref).number ∧
            b.status ≠ .cancelled ∧ b.status ≠ .checked_out ∧
            ci < b.check_out ∧ b.check_in < co) := by
        intro b hb hcontra
        exact hav ((room_is_available_iff s (heapGet s ref) ci co).mpr
          ⟨b, hb, hcontra⟩)
      by_cases hco : co ≤ ci
      · rw [if_pos hco]
        simp only [raisesConflict, HotelError.isInvalidOp, HotelError.isConflict]
        constructor
        · intro h
          cases h
        · rintro ⟨b, hb, hprop⟩
          exact absurd hprop (hfalse b hb)
      · rw [if_neg hco]
        simp only [raisesConflict]
        constructor
        · intro h
          cases h
        · rintro ⟨b, hb, hprop⟩
          exact absurd hprop (hfalse b hb)
  · intro hno hci
    have hav : ¬(HotelService.room_is_available s (heapGet s ref) ci co = false) := by
      intro hf
      obtain ⟨b, hb, hnum, hc1, hc2, h1, h2⟩ :=
        (room_is_available_iff s (heapGet s ref) ci co).mp hf
      rcases hno b hb hnum hc1 hc2 with h | h <;> omega
    rw [if_neg hav, if_neg (not_le.mpr hci)]
    rfl

/-- Witness for C1: in `exBooked` (booking [0,2) on room 101) creating the
exactly-abutting booking [2,5) succeeds. -/
theorem C1_create_booking_conflict_iff_witness :
    callSucceeds (HotelService.create_booking exBooked 0 101 2 5).1 = true :=
  (C1_create_booking_conflict_iff exBooked 0 101 2 5
    ⟨0, "John", "john@example.com"⟩ 0 rfl rfl).2 (by decide) (by decide)

/-- A successful `get_booking` returns a stored booking bearing the looked-up
id. -/
theorem get_booking_ok (s : Hotel) (bid : Nat) (b : Booking)
    (hb : HotelService.get_booking s bid = .ok b) :
    s.bookings.find? (fun x => x.booking_id = bid) = some b ∧
      b.booking_id = bid ∧ b ∈ s.bookings := by
  unfold HotelService.get_booking at hb
  cases h : s.bookings.find? (fun x => x.booking_id = bid) with
  | none => rw [h] at hb; cases hb
  | some x =>
    rw [h] at hb
    injection hb with hx
    subst hx
    refine ⟨rfl, ?_, List.mem_of_find?_eq_some h⟩
    simpa using List.find?_some h

/-- C2 counterexample: in `exCheckedIn` the booking has status checked_in, yet
`cancel_booking` returns normally and the status becomes cancelled — the
claim that a checked-in booking is not cancellable fails on the code. -/
theorem C2_counterexample :
    HotelService.get_booking exCheckedIn 0 = .ok ⟨0, 0, 0, 0, 2, .checked_in⟩ ∧
    (HotelService.cancel_booking exCheckedIn 0).1 = .ok () ∧
    HotelService.get_booking (HotelService.cancel_booking exCheckedIn 0).2 0 =
      .ok ⟨0, 0, 0, 0, 2, .cancelled⟩ :=
  ⟨rfl, rfl, rfl⟩

/-- C2 (amended): `cancel_booking` on a checked-in booking succeeds and sets
the status to cancelled — only checked_out blocks cancellation (and an
already-cancelled booking is a no-op). -/
theorem C2_cancel_checked_in_succeeds (s : Hotel) (bid : Nat) (b : Booking)
    (hb : HotelService.get_booking s bid = .ok b)
    (hst : b.status = .checked_in) :
    (HotelService.cancel_booking s bid).1 = .ok () ∧
      HotelService.get_booking (HotelService.cancel_booking s bid).2 bid =
        .ok { b with status := .cancelled } := by
  obtain ⟨hfind, hbid, hmem⟩ := get_booking_ok s bid b hb
  unfold HotelService.cancel_booking
  rw [hb]
  simp only [hst]
  rw [if_neg (by decide), if_neg (by decide)]
  refine ⟨rfl, ?_⟩
  rw [get_booking_setBookingStatus, hb]
  simp [Except.map, hbid]

/-- Witness for C2's amended theorem at the concrete state `exCheckedIn`. -/
theorem C2_cancel_checked_in_succeeds_witness :
    (HotelService.cancel_booking exCheckedIn 0).1 = .ok () ∧
      HotelService.get_booking (HotelService.cancel_booking exCheckedIn 0).2 0 =
        .ok ⟨0, 0, 0, 0, 2, .cancelled⟩ :=
  C2_cancel_checked_in_succeeds exCheckedIn 0 ⟨0, 0, 0, 0, 2, .checked_in⟩
    rfl rfl

/-- C3: for a checked-in booking, `check_out` on the booking's check-out date
succeeds, sets the status to checked_out, clears the room's occupancy flag,
and returns the day-count difference times the room's nightly price. -/
theorem C3_check_out_spec (s : Hotel) (bid : Nat) (b : Booking)
    (hb : HotelService.get_booking s bid = .ok b)
    (hst : b.status = .checked_in) :
    (HotelService.check_out s bid b.check_out).1 =
        .ok (((b.check_out - b.check_in : Int) : Rat) *
          (heapGet s b.roomRef).price_per_night) ∧
      HotelService.get_booking (HotelService.check_out s bid b.check_out).2
          bid = .ok { b with status := .checked_out } ∧
      (heapGet (HotelService.check_out s bid b.check_out).2
        b.roomRef).is_occupied = false := by
  obtain ⟨hfind, hbid, hmem⟩ := get_booking_ok s bid b hb
  unfold HotelService.check_out
  rw [hb]
  simp only [hst]
  rw [if_neg (by simp), if_neg (by simp)]
  refine ⟨?_, ?_, ?_⟩
  · simp only [HotelService.calculate_total_price, HotelService.nights_count]
    rw [heapGet_setRoomOccupied_price, heapGet_setBookingStatus]
  · rw [get_booking_setRoomOccupied, get_booking_setBookingStatus, hb]
    simp [Except.map, hbid]
  · exact heapGet_setRoomOccupied_false _ _

/-- Witness for C3: the 2-night booking at 100.0/night in `exCheckedIn` checks
out on day 2 for a total of 200.0. -/
theorem C3_check_out_spec_witness :
    (HotelService.check_out exCheckedIn 0 2).1 = .ok 200 ∧
      HotelService.get_booking (HotelService.check_out exCheckedIn 0 2).2 0 =
        .ok ⟨0, 0, 0, 0, 2, .checked_out⟩ ∧
      (heapGet (HotelService.check_out exCheckedIn 0 2).2 0).is_occupied =
        false := by
  have h := C3_check_out_spec exCheckedIn 0 ⟨0, 0, 0, 0, 2, .checked_in⟩ rfl rfl
  refine ⟨h.1.trans (by norm_num [heapGet, exCheckedIn]), h.2.1, h.2.2⟩

/-- Evaluation of `check_in` once the booking lookup succeeds. -/
theorem check_in_eval (s : Hotel) (bid : Nat) (d : Int) (b : Booking)
    (hb : HotelService.get_booking s bid = .ok b) :
    HotelService.check_in s bid d =
      if b.status ≠ .booked then
        (.error (.invalidOperation
          ("Cannot check-in: booking status is " ++ b.status.str)), s)
      else if d ≠ b.check_in then
        (.error (.invalidOperation
          ("Check-in date mismatch: expected " ++ toString b.check_in ++
            ", got " ++ toString d)), s)
      else if (heapGet s b.roomRef).is_occupied then
        (.error (.bookingConflict "Room is already occupied"), s)
      else
        (.ok (), HotelService.setRoomOccupied
          (HotelService.setBookingStatus s bid .checked_in) b.roomRef true) := by
  unfold HotelService.check_in
  rw [hb]

/-- C4: `check_in` raises `InvalidOperation` when the status is not booked or
the date differs from the booking's check-in date, raises `BookingConflict`
when the room is already occupied, otherwise sets the status to checked_in
and occupies the room; an absent booking id raises `NotFound`. -/
theorem C4_check_in_spec (s : Hotel) (bid : Nat) (d : Int) :
    (s.bookings.find? (fun x => x.booking_id = bid) = none →
      raisesNotFound (HotelService.check_in s bid d).1 = true) ∧
    (∀ b, HotelService.get_booking s bid = .ok b →
      (b.status ≠ .booked →
        raisesInvalidOp (HotelService.check_in s bid d).1 = true) ∧
      (b.status = .booked → d ≠ b.check_in →
        raisesInvalidOp (HotelService.check_in s bid d).1 = true) ∧
      (b.status = .booked → d = b.check_in →
        (heapGet s b.roomRef).is_occupied = true →
        raisesConflict (HotelService.check_in s bid d).1 = true) ∧
      (b.status = .booked → d = b.check_in →
        (heapGet s b.roomRef).is_occupied = false →
        (s.roomHeap.find? (fun p => p.1 = b.roomRef)).isSome = true →
        (HotelService.check_in s bid d).1 = .ok () ∧
          HotelService.get_booking (HotelService.check_in s bid d).2 bid =
            .ok { b with status := .checked_in } ∧
          (heapGet (HotelService.check_in s bid d).2 b.roomRef).is_occupied =
            true)) := by
  constructor
  · intro hnone
    unfold HotelService.check_in HotelService.get_booking
    rw [hnone]
    rfl
  · intro b hb
    obtain ⟨hfind, hbid, hmem⟩ := get_booking_ok s bid b hb
    rw [check_in_eval s bid d b hb]
    refine ⟨?_, ?_, ?_, ?_⟩
    · intro hst
      rw [if_pos hst]
      rfl
    · intro hst hd
      rw [if_neg (by simp [hst]), if_pos hd]
      rfl
    · intro hst hd hocc
      rw [if_neg (by simp [hst]), if_neg (by simp [hd]), if_pos hocc]
      rfl
    · intro hst hd hocc href
      rw [if_neg (by simp [hst]), if_neg (by simp [hd]),
        if_neg (by simp [hocc])]
      refine ⟨rfl, ?_, ?_⟩
      · rw [get_booking_setRoomOccupied, get_booking_setBookingStatus, hb]
        simp [Except.map, hbid]
      · have hr : ((HotelService.setBookingStatus s bid
            BookingStatus.checked_in).roomHeap.find?
            (fun p => p.1 = b.roomRef)).isSome = true := href
        rw [heapGet_setRoomOccupied_self _ _ _ hr]

/-- Witness for C4: in `exBooked`, checking in booking 0 on its check-in day
succeeds, the status becomes checked_in and room 101 becomes occupied. -/
theorem C4_check_in_spec_witness :
    (HotelService.check_in exBooked 0 0).1 = .ok () ∧
      HotelService.get_booking (HotelService.check_in exBooked 0 0).2 0 =
        .ok ⟨0, 0, 0, 0, 2, .checked_in⟩ ∧
      (heapGet (HotelService.check_in exBooked 0 0).2 0).is_occupied = true :=
  ((C4_check_in_spec exBooked 0 0).2 ⟨0, 0, 0, 0, 2, .booked⟩ rfl).2.2.2
    rfl rfl rfl rfl

/-- Evaluation of `cancel_booking` once the booking lookup succeeds. -/
theorem cancel_booking_eval (s : Hotel) (bid : Nat) (b : Booking)
    (hb : HotelService.get_booking s bid = .ok b) :
    HotelService.cancel_booking s bid =
      if b.status = .cancelled then (.ok (), s)
      else if b.status = .checked_out then
        (.error (.invalidOperation "Cannot cancel checked-out booking"), s)
      else (.ok (), HotelService.setBookingStatus s bid .cancelled) := by
  unfold HotelService.cancel_booking
  rw [hb]

/-- Evaluation of `check_out` once the booking lookup succeeds. -/
theorem check_out_eval (s : Hotel) (bid : Nat) (d : Int) (b : Booking)
    (hb : HotelService.get_booking s bid = .ok b) :
    HotelService.check_out s bid d =
      if b.status ≠ .checked_in then
        (.error (.invalidOperation
          ("Cannot check-out: booking status is " ++ b.status.str)), s)
      else if d ≠ b.check_out then
        (.error (.invalidOperation
          ("Check-out date mismatch: expected " ++ toString b.check_out ++
            ", got " ++ toString d)), s)
      else
        (.ok (HotelService.calculate_total_price
            (HotelService.setRoomOccupied
              (HotelService.setBookingStatus s bid .checked_out)
              b.roomRef false) b),
          HotelService.setRoomOccupied
            (HotelService.setBookingStatus s bid .checked_out)
            b.roomRef false) := by
  unfold HotelService.check_out
  rw [hb]

/-- C5: every engine operation is validate-then-mutate — whenever a call
raises, the state it leaves behind is exactly the input state; in particular
a `check_in` on the wrong date raises `InvalidOperation` and changes
nothing. -/
theorem C5_error_atomicity (s : Hotel) :
    (∀ n t p e, (Hotel.add_room s n t p).1 = .error e →
      (Hotel.add_room s n t p).2 = s) ∧
    (∀ n e, (Hotel.remove_room s n).1 = .error e →
      (Hotel.remove_room s n).2 = s) ∧
    (∀ g rn ci co e,
      (HotelService.create_booking s g rn ci co).1 = .error e →
      (HotelService.create_booking s g rn ci co).2 = s) ∧
    (∀ bid e, (HotelService.cancel_booking s bid).1 = .error e →
      (HotelService.cancel_booking s bid).2 = s) ∧
    (∀ bid d e, (HotelService.check_in s bid d).1 = .error e →
      (HotelService.check_in s bid d).2 = s) ∧
    (∀ bid d e, (HotelService.check_out s bid d).1 = .error e →
      (HotelService.check_out s bid d).2 = s) ∧
    (∀ bid d b, HotelService.get_booking s bid = .ok b →
      b.status = .booked → d ≠ b.check_in →
      raisesInvalidOp (HotelService.check_in s bid d).1 = true ∧
        (HotelService.check_in s bid d).2 = s) := by
  refine ⟨?_, ?_, ?_, ?_, ?_, ?_, ?_⟩
  · intro n t p e h
    unfold Hotel.add_room at h ⊢
    by_cases hd : s.hasRoomNumber n = true
    · simp [hd]
    · rw [if_neg hd] at h ⊢
      cases hc : Room.create n t p false with
      | error e2 => rfl
      | ok room => rw [hc] at h; simp at h
  · intro n e h
    unfold Hotel.remove_room at h ⊢
    cases hf : s.rooms.find? (fun p => p.1 = n) with
    | none => rfl
    | some p =>
      rw [hf] at h
      by_cases ho : (heapGet s p.2).is_occupied = true
      · simp [ho]
      · simp [ho] at h
  · intro g rn ci co e h
    cases hg : HotelService.get_guest s g with
    | error e2 => unfold HotelService.create_booking; rw [hg]
    | ok gg =>
      cases hr : Hotel.get_room s rn with
      | error e2 => unfold HotelService.create_booking; rw [hg, hr]
      | ok ref =>
        rw [create_booking_eval s g rn ci co gg ref hg hr] at h ⊢
        by_cases hav :
          HotelService.room_is_available s (heapGet s ref) ci co = false
        · simp [hav]
        · rw [if_neg hav] at h ⊢
          by_cases hco : co ≤ ci
          · simp [hco]
          · rw [if_neg hco] at h
            simp at h
  · intro bid e h
    cases hb : HotelService.get_booking s bid with
    | error e2 => unfold HotelService.cancel_booking; rw [hb]
    | ok b =>
      rw [cancel_booking_eval s bid b hb] at h ⊢
      by_cases h1 : b.status = .cancelled
      · rw [if_pos h1] at h; simp at h
      · rw [if_neg h1] at h ⊢
        by_cases h2 : b.status = .checked_out
        · simp [h2]
        · rw [if_neg h2] at h; simp at h
  · intro bid d e h
    cases hb : HotelService.get_booking s bid with
    | error e2 => unfold HotelService.check_in; rw [hb]
    | ok b =>
      rw [check_in_eval s bid d b hb] at h ⊢
      by_cases h1 : b.status ≠ .booked
      · simp [h1]
      · rw [if_neg h1] at h ⊢
        by_cases h2 : d ≠ b.check_in
        · simp [h2]
        · rw [if_neg h2] at h ⊢
          by_cases h3 : (heapGet s b.roomRef).is_occupied = true
          · simp [h3]
          · rw [if_neg h3] at h; simp at h
  · intro bid d e h
    cases hb : HotelService.get_booking s bid with
    | error e2 => unfold HotelService.check_out; rw [hb]
    | ok b =>
      rw [check_out_eval s bid d b hb] at h ⊢
      by_cases h1 : b.status ≠ .checked_in
      · simp [h1]
      · rw [if_neg h1] at h ⊢
        by_cases h2 : d ≠ b.check_out
        · simp [h2]
        · rw [if_neg h2] at h; simp at h
  · intro bid d b hb hst hd
    rw [check_in_eval s bid d b hb, if_neg (by simp [hst]), if_pos hd]
    exact ⟨rfl, rfl⟩

/-- Witness for C5: in `exBooked` a check-in attempted on day 1 (the booking
starts on day 0) raises `InvalidOperation` and leaves the state intact. -/
theorem C5_error_atomicity_witness :
    raisesInvalidOp (HotelService.check_in exBooked 0 1).1 = true ∧
      (HotelService.check_in exBooked 0 1).2 = exBooked :=
  (C5_error_atomicity exBooked).2.2.2.2.2.2 0 1 ⟨0, 0, 0, 0, 2, .booked⟩
    rfl rfl (by decide)

/-- `exCheckedIn` after its booking was cancelled (room still occupied). -/
def exCancelled : Hotel :=
  ⟨"Luxury Hotel", [(0, ⟨101, "single", 100, true⟩)], 1, [(101, 0)],
    [⟨0, "John", "john@example.com"⟩], 1, [⟨0, 0, 0, 0, 2, .cancelled⟩], 1⟩

/-- C6: cancelling an already-cancelled booking raises nothing and returns the
state unchanged, and a repeated cancel behaves identically. -/
theorem C6_cancel_idempotent (s : Hotel) (bid : Nat) (b : Booking)
    (hb : HotelService.get_booking s bid = .ok b)
    (hst : b.status = .cancelled) :
    HotelService.cancel_booking s bid = (.ok (), s) ∧
      HotelService.cancel_booking (HotelService.cancel_booking s bid).2 bid =
        HotelService.cancel_booking s bid := by
  have h1 : HotelService.cancel_booking s bid = (.ok (), s) := by
    rw [cancel_booking_eval s bid b hb, if_pos hst]
  exact ⟨h1, by rw [h1]; exact h1⟩

/-- Witness for C6 at the concrete state `exCancelled`. -/
theorem C6_cancel_idempotent_witness :
    HotelService.cancel_booking exCancelled 0 = (.ok (), exCancelled) ∧
      HotelService.cancel_booking
          (HotelService.cancel_booking exCancelled 0).2 0 =
        HotelService.cancel_booking exCancelled 0 :=
  C6_cancel_idempotent exCancelled 0 ⟨0, 0, 0, 0, 2, .cancelled⟩ rfl rfl

/-- Folding the revenue accumulator equals the initial value plus the sum of
total prices over the checked-out bookings. -/
theorem foldl_revenue (s : Hotel) (l : List Booking) (c : Rat) :
    l.foldl (fun total b =>
        if b.status = .checked_out then
          total + HotelService.calculate_total_price s b
        else total) c =
      c + ((l.filter (fun b => b.status = .checked_out)).map
        (fun b => HotelService.calculate_total_price s b)).sum := by
  induction l generalizing c with
  | nil => simp
  | cons x xs ih =>
    by_cases hx : x.status = .checked_out <;> simp [hx, ih, add_assoc]

/-- C7: total revenue is the sum of nights times nightly price over exactly
the checked-out bookings; in the concrete state with one checked-out 2-night
booking at 100.0 and one still-booked booking it is 200.0. -/
theorem C7_revenue_checked_out_only (s : Hotel) :
    (HotelService.calculate_total_revenue s =
      ((s.bookings.filter (fun b => b.status = .checked_out)).map
        (fun b => ((b.check_out - b.check_in : Int) : Rat) *
          (heapGet s b.roomRef).price_per_night)).sum) ∧
    HotelService.calculate_total_revenue exRevenue = 200 := by
  constructor
  · unfold HotelService.calculate_total_revenue
    rw [foldl_revenue]
    simp [HotelService.calculate_total_price, HotelService.nights_count]
  · simp [HotelService.calculate_total_revenue, exRevenue,
      HotelService.calculate_total_price, HotelService.nights_count, heapGet,
      List.find?]
    norm_num

/-- Evaluation of a valid `add_room`. -/
theorem add_room_eval (s : Hotel) (number : Int) (t : String) (p : Rat)
    (room : Room) (hc : Room.create number t p false = .ok room)
    (hno : s.hasRoomNumber number = false) :
    Hotel.add_room s number t p =
      (.ok room,
        { s with
          roomHeap := s.roomHeap ++ [(s.nextRef, room)]
          nextRef := s.nextRef + 1
          rooms := s.rooms ++ [(number, s.nextRef)] }) := by
  unfold Hotel.add_room
  rw [if_neg (by simp [hno]), hc]

/-- C8: a valid room addition (fresh positive number, positive price,
non-empty type) succeeds and the room is afterwards retrievable by its number
through `get_room`; adding a duplicate number always raises
`InvalidOperation`, whatever type and price, and leaves the state
unchanged. -/
theorem C8_add_room_spec (s : Hotel) (number : Int) (t : String) (p : Rat) :
    (s.hasRoomNumber number = false → 0 < number → 0 < p → t ≠ "" →
      s.roomHeap.find? (fun q => q.1 = s.nextRef) = none →
      (HotelService.add_room s number t p).1 = .ok ⟨number, t, p, false⟩ ∧
        Hotel.get_room (HotelService.add_room s number t p).2 number =
          .ok s.nextRef ∧
        heapGet (HotelService.add_room s number t p).2 s.nextRef =
          ⟨number, t, p, false⟩) ∧
    (s.hasRoomNumber number = true →
      raisesInvalidOp (HotelService.add_room s number t p).1 = true ∧
        (HotelService.add_room s number t p).2 = s) := by
  constructor
  · intro hno hpos hp ht hfresh
    have hcr : Room.create number t p false = .ok ⟨number, t, p, false⟩ := by
      unfold Room.create
      rw [if_neg (not_le.mpr hpos), if_neg (not_le.mpr hp), if_neg ht]
    unfold HotelService.add_room
    rw [add_room_eval s number t p ⟨number, t, p, false⟩ hcr hno]
    have h1 : s.rooms.find? (fun q => q.1 = number) = none := by
      unfold Hotel.hasRoomNumber at hno
      exact Option.not_isSome_iff_eq_none.mp (by simp [hno])
    refine ⟨rfl, ?_, ?_⟩
    · unfold Hotel.get_room
      simp [List.find?_append, h1]
    · unfold heapGet
      simp [List.find?_append, hfresh]
  · intro hdup
    unfold HotelService.add_room Hotel.add_room
    rw [if_pos (by simp [hdup])]
    exact ⟨rfl, rfl⟩

/-- Witness for C8: adding room 101 to the empty hotel succeeds and the room
is retrievable; adding 101 again to `exBase` fails with InvalidOperation. -/
theorem C8_add_room_spec_witness :
    ((HotelService.add_room exEmpty 101 "single" 100).1 =
        .ok ⟨101, "single", 100, false⟩ ∧
      Hotel.get_room (HotelService.add_room exEmpty 101 "single" 100).2 101 =
        .ok 0 ∧
      heapGet (HotelService.add_room exEmpty 101 "single" 100).2 0 =
        ⟨101, "single", 100, false⟩) ∧
    (raisesInvalidOp (HotelService.add_room exBase 101 "double" 50).1 = true ∧
      (HotelService.add_room exBase 101 "double" 50).2 = exBase) :=
  ⟨(C8_add_room_spec exEmpty 101 "single" 100).1 rfl (by norm_num)
      (by norm_num) (by simp) rfl,
    (C8_add_room_spec exBase 101 "double" 50).2 rfl⟩

/-- `heapGet` only depends on the `roomHeap` component. -/
theorem heapGet_roomHeap_eq (s s2 : Hotel) (h : s2.roomHeap = s.roomHeap)
    (ref : Nat) : heapGet s2 ref = heapGet s ref := by
  unfold heapGet
  rw [h]

/-- `cancel_booking` never changes the room heap. -/
theorem cancel_booking_roomHeap (s : Hotel) (bid : Nat) :
    (HotelService.cancel_booking s bid).2.roomHeap = s.roomHeap := by
  cases hb : HotelService.get_booking s bid with
  | error e => unfold HotelService.cancel_booking; rw [hb]
  | ok b =>
    rw [cancel_booking_eval s bid b hb]
    by_cases h1 : b.status = .cancelled
    · rw [if_pos h1]
    · rw [if_neg h1]
      by_cases h2 : b.status = .checked_out
      · rw [if_pos h2]
      · rw [if_neg h2]; rfl

/-- `remove_room` never changes the room heap. -/
theorem remove_room_roomHeap (s : Hotel) (n : Int) :
    (Hotel.remove_room s n).2.roomHeap = s.roomHeap := by
  unfold Hotel.remove_room
  cases hf : s.rooms.find? (fun p => p.1 = n) with
  | none => rfl
  | some p => by_cases ho : (heapGet s p.2).is_occupied = true <;> simp [ho]

/-- `register_guest` never changes the room heap. -/
theorem register_guest_roomHeap (s : Hotel) (nm ct : String) :
    (HotelService.register_guest s nm ct).2.roomHeap = s.roomHeap := by
  unfold HotelService.register_guest
  by_cases h1 : nm = "" <;> by_cases h2 : ct = "" <;> simp [h1, h2]

/-- `create_booking` never changes the room heap. -/
theorem create_booking_roomHeap (s : Hotel) (g : Nat) (rn : Int)
    (ci co : Int) :
    (HotelService.create_booking s g rn ci co).2.roomHeap = s.roomHeap := by
  cases hg : HotelService.get_guest s g with
  | error e => unfold HotelService.create_booking; rw [hg]
  | ok gg =>
    cases hr : Hotel.get_room s rn with
    | error e => unfold HotelService.create_booking; rw [hg, hr]
    | ok ref =>
      rw [create_booking_eval s g rn ci co gg ref hg hr]
      by_cases hav :
        HotelService.room_is_available s (heapGet s ref) ci co = false
      · rw [if_pos hav]
      · rw [if_neg hav]
        by_cases hco : co ≤ ci
        · rw [if_pos hco]
        · rw [if_neg hco]

/-- Appending fresh cells does not change a cell that is readable and
occupied. -/
theorem heapGet_roomHeap_append (s s2 : Hotel) (l2 : List (Nat × Room))
    (ref : Nat) (h2 : s2.roomHeap = s.roomHeap ++ l2)
    (h : (heapGet s ref).is_occupied = true) :
    heapGet s2 ref = heapGet s ref := by
  unfold heapGet at h ⊢
  rw [h2, List.find?_append]
  cases hf : s.roomHeap.find? (fun p => p.1 = ref) with
  | none => rw [hf] at h; simp at h
  | some p => rfl

/-- Setting some room's flag to `true` keeps every occupied cell occupied. -/
theorem heapGet_setRoomOccupied_true_mono (s : Hotel) (ref2 ref : Nat)
    (h : (heapGet s ref).is_occupied = true) :
    (heapGet (HotelService.setRoomOccupied s ref2 true) ref).is_occupied =
      true := by
  by_cases he : ref = ref2
  · subst he
    by_cases hs : (s.roomHeap.find? (fun p => p.1 = ref)).isSome = true
    · rw [heapGet_setRoomOccupied_self s ref true hs]
    · unfold heapGet at h
      rw [Option.not_isSome_iff_eq_none] at hs
      rw [hs] at h
      simp at h
  · rw [heapGet_setRoomOccupied_ne s ref2 true ref he]
    exact h

/-- `cancel_booking` either leaves the state untouched or performs exactly the
status update of the targeted booking. -/
theorem cancel_booking_state (s : Hotel) (bid : Nat) :
    (HotelService.cancel_booking s bid).2 = s ∨
      (HotelService.cancel_booking s bid).2 =
        HotelService.setBookingStatus s bid .cancelled := by
  cases hb : HotelService.get_booking s bid with
  | error e => left; unfold HotelService.cancel_booking; rw [hb]
  | ok b =>
    rw [cancel_booking_eval s bid b hb]
    by_cases h1 : b.status = .cancelled
    · left; rw [if_pos h1]
    · rw [if_neg h1]
      by_cases h2 : b.status = .checked_out
      · left; rw [if_pos h2]
      · right; rw [if_neg h2]

/-- The room stuck occupied after the checked-in booking was cancelled, with a
second booked booking on the same room. -/
def exStuck : Hotel :=
  ⟨"Luxury Hotel", [(0, ⟨101, "single", 100, true⟩)], 1, [(101, 0)],
    [⟨0, "John", "john@example.com"⟩], 1,
    [⟨0, 0, 0, 0, 2, .cancelled⟩, ⟨1, 0, 0, 2, 4, .booked⟩], 2⟩

/-- C9: `cancel_booking` modifies at most the targeted booking's status and
never touches any room, so cancelling a checked-in booking leaves the room's
occupancy flag set; a `check_in` whose room is occupied raises
`BookingConflict`, `remove_room` on an occupied room raises
`InvalidOperation`, and no operation other than a successful `check_out` on a
booking referencing the room ever clears an occupancy flag. -/
theorem C9_cancel_frame_and_stuck_room (s : Hotel) (bid : Nat) :
    ((HotelService.cancel_booking s bid).2.roomHeap = s.roomHeap ∧
     (HotelService.cancel_booking s bid).2.rooms = s.rooms ∧
     (HotelService.cancel_booking s bid).2.guests = s.guests ∧
     (HotelService.cancel_booking s bid).2.bookings.length =
       s.bookings.length ∧
     (∀ i (h1 : i < s.bookings.length)
        (h2 : i < (HotelService.cancel_booking s bid).2.bookings.length),
        (((HotelService.cancel_booking s bid).2.bookings.get
            ⟨i, h2⟩).booking_id = (s.bookings.get ⟨i, h1⟩).booking_id ∧
         ((HotelService.cancel_booking s bid).2.bookings.get
            ⟨i, h2⟩).guest_id = (s.bookings.get ⟨i, h1⟩).guest_id ∧
         ((HotelService.cancel_booking s bid).2.bookings.get
            ⟨i, h2⟩).roomRef = (s.bookings.get ⟨i, h1⟩).roomRef ∧
         ((HotelService.cancel_booking s bid).2.bookings.get
            ⟨i, h2⟩).check_in = (s.bookings.get ⟨i, h1⟩).check_in ∧
         ((HotelService.cancel_booking s bid).2.bookings.get
            ⟨i, h2⟩).check_out = (s.bookings.get ⟨i, h1⟩).check_out ∧
         ((s.bookings.get ⟨i, h1⟩).booking_id ≠ bid →
           ((HotelService.cancel_booking s bid).2.bookings.get
             ⟨i, h2⟩).status = (s.bookings.get ⟨i, h1⟩).status)))) ∧
    (∀ ref, (heapGet (HotelService.cancel_booking s bid).2 ref).is_occupied =
      (heapGet s ref).is_occupied) ∧
    (∀ bid2 d b2, HotelService.get_booking s bid2 = .ok b2 →
      b2.status = .booked → d = b2.check_in →
      (heapGet s b2.roomRef).is_occupied = true →
      raisesConflict (HotelService.check_in s bid2 d).1 = true) ∧
    (∀ n pr, s.rooms.find? (fun q => q.1 = n) = some pr →
      (heapGet s pr.2).is_occupied = true →
      raisesInvalidOp (Hotel.remove_room s n).1 = true) ∧
    (∀ ref, (heapGet s ref).is_occupied = true →
      (∀ n t p,
        (heapGet (Hotel.add_room s n t p).2 ref).is_occupied = true) ∧
      (∀ n, (heapGet (Hotel.remove_room s n).2 ref).is_occupied = true) ∧
      (∀ nm ct,
        (heapGet (HotelService.register_guest s nm ct).2 ref).is_occupied =
          true) ∧
      (∀ g rn ci co,
        (heapGet (HotelService.create_booking s g rn ci co).2
          ref).is_occupied = true) ∧
      (∀ bid2,
        (heapGet (HotelService.cancel_booking s bid2).2 ref).is_occupied =
          true) ∧
      (∀ bid2 d,
        (heapGet (HotelService.check_in s bid2 d).2 ref).is_occupied =
          true) ∧
      (∀ bid2 d,
        (heapGet (HotelService.check_out s bid2 d).2 ref).is_occupied =
          false →
        ∃ b2 v, HotelService.get_booking s bid2 = .ok b2 ∧
          b2.roomRef = ref ∧
          (HotelService.check_out s bid2 d).1 = .ok v)) := by
  refine ⟨?_, ?_, ?_, ?_, ?_⟩
  · rcases cancel_booking_state s bid with hk | hk <;> rw [hk]
    · exact ⟨rfl, rfl, rfl, rfl,
        fun i h1 h2 => ⟨rfl, rfl, rfl, rfl, rfl, fun _ => rfl⟩⟩
    · refine ⟨rfl, rfl, rfl, by simp [HotelService.setBookingStatus], ?_⟩
      intro i h1 h2
      have hg : (HotelService.setBookingStatus s bid
            BookingStatus.cancelled).bookings.get ⟨i, h2⟩ =
          (fun b => if b.booking_id = bid then
            { b with status := BookingStatus.cancelled } else b)
            (s.bookings.get ⟨i, h1⟩) := by
        simp [HotelService.setBookingStatus, List.get_map]
      rw [hg]
      by_cases hc : (s.bookings.get ⟨i, h1⟩).booking_id = bid <;>
        simp only [List.get_eq_getElem] at hc <;> simp [hc]
  · intro ref
    rcases cancel_booking_state s bid with hk | hk <;> rw [hk] <;> rfl
  · intro bid2 d b2 hb2 hst hd hocc
    rw [check_in_eval s bid2 d b2 hb2, if_neg (by simp [hst]),
      if_neg (by simp [hd]), if_pos hocc]
    rfl
  · intro n pr hf hocc
    unfold Hotel.remove_room
    rw [hf]
    simp [hocc, raisesInvalidOp, HotelError.isInvalidOp]
  · intro ref h
    refine ⟨?_, ?_, ?_, ?_, ?_, ?_, ?_⟩
    · intro n t p
      unfold Hotel.add_room
      by_cases hd : s.hasRoomNumber n = true
      · rw [if_pos hd]; exact h
      · rw [if_neg hd]
        cases hc : Room.create n t p false with
        | error e => exact h
        | ok room =>
          rw [heapGet_roomHeap_append s _ [(s.nextRef, room)] ref rfl h]
          exact h
    · intro n
      rw [heapGet_roomHeap_eq s (Hotel.remove_room s n).2
        (remove_room_roomHeap s n) ref]
      exact h
    · intro nm ct
      rw [heapGet_roomHeap_eq s (HotelService.register_guest s nm ct).2
        (register_guest_roomHeap s nm ct) ref]
      exact h
    · intro g rn ci co
      rw [heapGet_roomHeap_eq s (HotelService.create_booking s g rn ci co).2
        (create_booking_roomHeap s g rn ci co) ref]
      exact h
    · intro bid2
      rw [heapGet_roomHeap_eq s (HotelService.cancel_booking s bid2).2
        (cancel_booking_roomHeap s bid2) ref]
      exact h
    · intro bid2 d
      cases hb2 : HotelService.get_booking s bid2 with
      | error e =>
        unfold HotelService.check_in
        rw [hb2]
        exact h
      | ok b2 =>
        rw [check_in_eval s bid2 d b2 hb2]
        by_cases h1 : b2.status ≠ .booked
        · rw [if_pos h1]; exact h
        · rw [if_neg h1]
          by_cases h2 : d ≠ b2.check_in
          · rw [if_pos h2]; exact h
          · rw [if_neg h2]
            by_cases h3 : (heapGet s b2.roomRef).is_occupied = true
            · rw [if_pos h3]; exact h
            · rw [if_neg h3]
              exact heapGet_setRoomOccupied_true_mono _ b2.roomRef ref h
    · intro bid2 d hf
      cases hb2 : HotelService.get_booking s bid2 with
      | error e =>
        unfold HotelService.check_out at hf
        rw [hb2] at hf
        simp [h] at hf
      | ok b2 =>
        rw [check_out_eval s bid2 d b2 hb2] at hf ⊢
        by_cases h1 : b2.status ≠ .checked_in
        · rw [if_pos h1] at hf; simp [h] at hf
        · rw [if_neg h1] at hf ⊢
          by_cases h2 : d ≠ b2.check_out
          · rw [if_pos h2] at hf; simp [h] at hf
          · rw [if_neg h2] at hf ⊢
            by_cases hrr : b2.roomRef = ref
            · exact ⟨b2, _, rfl, hrr, rfl⟩
            · exfalso
              rw [heapGet_setRoomOccupied_ne _ b2.roomRef false ref
                (fun hh => hrr hh.symm)] at hf
              rw [heapGet_setBookingStatus] at hf
              simp [h] at hf

/-- Witness for C9 at `exStuck`: check-in of the booked booking 1 on its
start day fails with `BookingConflict` because room 101 is still occupied,
and `remove_room 101` fails with `InvalidOperation`. -/
theorem C9_cancel_frame_and_stuck_room_witness :
    raisesConflict (HotelService.check_in exStuck 1 2).1 = true ∧
      raisesInvalidOp (Hotel.remove_room exStuck 101).1 = true :=
  ⟨(C9_cancel_frame_and_stuck_room exStuck 0).2.2.1 1 2
      ⟨1, 0, 0, 2, 4, .booked⟩ rfl rfl rfl rfl,
    (C9_cancel_frame_and_stuck_room exStuck 0).2.2.2.1 101 (101, 0) rfl rfl⟩

/-- States reachable from `Hotel.__init__` through the engine operations.
The `load` constructor covers the application start-up, which inserts rooms
and guests loaded from JSON directly into the dictionaries — it never touches
the bookings collection. -/
inductive Reachable : Hotel → Prop where
  | init (name : String) (s : Hotel) : Hotel.init name = .ok s → Reachable s
  | add_room (s : Hotel) (n : Int) (t : String) (p : Rat) :
      Reachable s → Reachable (Hotel.add_room s n t p).2
  | remove_room (s : Hotel) (n : Int) :
      Reachable s → Reachable (Hotel.remove_room s n).2
  | register_guest (s : Hotel) (nm ct : String) :
      Reachable s → Reachable (HotelService.register_guest s nm ct).2
  | create_booking (s : Hotel) (g : Nat) (rn : Int) (ci co : Int) :
      Reachable s → Reachable (HotelService.create_booking s g rn ci co).2
  | cancel_booking (s : Hotel) (bid : Nat) :
      Reachable s → Reachable (HotelService.cancel_booking s bid).2
  | check_in (s : Hotel) (bid : Nat) (d : Int) :
      Reachable s → Reachable (HotelService.check_in s bid d).2
  | check_out (s : Hotel) (bid : Nat) (d : Int) :
      Reachable s → Reachable (HotelService.check_out s bid d).2
  | load (s s2 : Hotel) : Reachable s → s2.bookings = s.bookings →
      Reachable s2

/-- A status update never breaks the date ordering of the bookings. -/
theorem setBookingStatus_dates (s : Hotel) (bid : Nat) (st : BookingStatus)
    (ih : ∀ b ∈ s.bookings, b.check_in < b.check_out) :
    ∀ b ∈ (HotelService.setBookingStatus s bid st).bookings,
      b.check_in < b.check_out := by
  intro b hb
  unfold HotelService.setBookingStatus at hb
  simp only [List.mem_map] at hb
  obtain ⟨b2, hb2, rfl⟩ := hb
  by_cases hc : b2.booking_id = bid
  · simp only [if_pos hc]
    exact ih b2 hb2
  · simp only [if_neg hc]
    exact ih b2 hb2

/-- `add_room` keeps the bookings collection unchanged. -/
theorem add_room_bookings (s : Hotel) (n : Int) (t : String) (p : Rat) :
    (Hotel.add_room s n t p).2.bookings = s.bookings := by
  unfold Hotel.add_room
  by_cases hd : s.hasRoomNumber n = true
  · rw [if_pos hd]
  · rw [if_neg hd]
    cases hc : Room.create n t p false with
    | error e => rfl
    | ok room => rfl

/-- `remove_room` keeps the bookings collection unchanged. -/
theorem remove_room_bookings (s : Hotel) (n : Int) :
    (Hotel.remove_room s n).2.bookings = s.bookings := by
  unfold Hotel.remove_room
  cases hf : s.rooms.find? (fun p => p.1 = n) with
  | none => rfl
  | some p => by_cases ho : (heapGet s p.2).is_occupied = true <;> simp [ho]

/-- `register_guest` keeps the bookings collection unchanged. -/
theorem register_guest_bookings (s : Hotel) (nm ct : String) :
    (HotelService.register_guest s nm ct).2.bookings = s.bookings := by
  unfold HotelService.register_guest
  by_cases h1 : nm = "" <;> by_cases h2 : ct = "" <;> simp [h1, h2]

/-- A successful `create_booking` only appends a date-valid booking. -/
theorem create_booking_dates (s : Hotel) (g : Nat) (rn : Int) (ci co : Int)
    (ih : ∀ b ∈ s.bookings, b.check_in < b.check_out) :
    ∀ b ∈ (HotelService.create_booking s g rn ci co).2.bookings,
      b.check_in < b.check_out := by
  intro b hb
  cases hg : HotelService.get_guest s g with
  | error e =>
    unfold HotelService.create_booking at hb
    rw [hg] at hb
    exact ih b hb
  | ok gg =>
    cases hr : Hotel.get_room s rn with
    | error e =>
      unfold HotelService.create_booking at hb
      rw [hg, hr] at hb
      exact ih b hb
    | ok ref =>
      rw [create_booking_eval s g rn ci co gg ref hg hr] at hb
      by_cases hav :
        HotelService.room_is_available s (heapGet s ref) ci co = false
      · rw [if_pos hav] at hb
        exact ih b hb
      · rw [if_neg hav] at hb
        by_cases hco : co ≤ ci
        · rw [if_pos hco] at hb
          exact ih b hb
        · rw [if_neg hco] at hb
          simp only [List.mem_append, List.mem_singleton] at hb
          rcases hb with hb | hb
          · exact ih b hb
          · subst hb
            simpa using not_le.mp hco

/-- `check_in` either leaves the bookings unchanged or applies the status
update. -/
theorem check_in_bookings (s : Hotel) (bid : Nat) (d : Int) :
    (HotelService.check_in s bid d).2.bookings = s.bookings ∨
      (HotelService.check_in s bid d).2.bookings =
        (HotelService.setBookingStatus s bid .checked_in).bookings := by
  cases hb : HotelService.get_booking s bid with
  | error e => left; unfold HotelService.check_in; rw [hb]
  | ok b =>
    rw [check_in_eval s bid d b hb]
    by_cases h1 : b.status ≠ .booked
    · left; rw [if_pos h1]
    · rw [if_neg h1]
      by_cases h2 : d ≠ b.check_in
      · left; rw [if_pos h2]
      · rw [if_neg h2]
        by_cases h3 : (heapGet s b.roomRef).is_occupied = true
        · left; rw [if_pos h3]
        · right; rw [if_neg h3]; rfl

/-- `check_out` either leaves the bookings unchanged or applies the status
update. -/
theorem check_out_bookings (s : Hotel) (bid : Nat) (d : Int) :
    (HotelService.check_out s bid d).2.bookings = s.bookings ∨
      (HotelService.check_out s bid d).2.bookings =
        (HotelService.setBookingStatus s bid .checked_out).bookings := by
  cases hb : HotelService.get_booking s bid with
  | error e => left; unfold HotelService.check_out; rw [hb]
  | ok b =>
    rw [check_out_eval s bid d b hb]
    by_cases h1 : b.status ≠ .checked_in
    · left; rw [if_pos h1]
    · rw [if_neg h1]
      by_cases h2 : d ≠ b.check_out
      · left; rw [if_pos h2]
      · right; rw [if_neg h2]; rfl

/-- Every booking ever stored in a reachable state satisfies
`check_in < check_out`: only `create_booking` inserts bookings and the
`Booking.__post_init__` validation guards the insertion. -/
theorem reachable_booking_dates (s : Hotel) (h : Reachable s) :
    ∀ b ∈ s.bookings, b.check_in < b.check_out := by
  induction h with
  | init name s0 h0 =>
    intro b hb
    unfold Hotel.init at h0
    by_cases hn : name = ""
    · rw [if_pos hn] at h0
      cases h0
    · rw [if_neg hn] at h0
      injection h0 with h0
      subst h0
      cases hb
  | add_room s0 n t p hr ih =>
    intro b hb
    rw [add_room_bookings] at hb
    exact ih b hb
  | remove_room s0 n hr ih =>
    intro b hb
    rw [remove_room_bookings] at hb
    exact ih b hb
  | register_guest s0 nm ct hr ih =>
    intro b hb
    rw [register_guest_bookings] at hb
    exact ih b hb
  | create_booking s0 g rn ci co hr ih =>
    exact create_booking_dates s0 g rn ci co ih
  | cancel_booking s0 bid hr ih =>
    intro b hb
    rcases cancel_booking_state s0 bid with hk | hk <;> rw [hk] at hb
    · exact ih b hb
    · exact setBookingStatus_dates s0 bid .cancelled ih b hb
  | check_in s0 bid d hr ih =>
    intro b hb
    rcases check_in_bookings s0 bid d with hk | hk <;> rw [hk] at hb
    · exact ih b hb
    · exact setBookingStatus_dates s0 bid .checked_in ih b hb
  | check_out s0 bid d hr ih =>
    intro b hb
    rcases check_out_bookings s0 bid d with hk | hk <;> rw [hk] at hb
    · exact ih b hb
    · exact setBookingStatus_dates s0 bid .checked_out ih b hb
  | load s0 s2 hr hbk ih =>
    intro b hb
    rw [hbk] at hb
    exact ih b hb

/-- C10 counterexample: in `exOverlap` (guest 0 and room 101 both exist, one
active booking over [0,10)) the degenerate request [5,5) raises
`BookingConflict` — not the `InvalidOperation` the claim promises — because
the availability check runs before the `Booking` constructor validation and
`5 < 10 ∧ 0 < 5` counts as an overlap. -/
theorem C10_counterexample :
    HotelService.get_guest exOverlap 0 = .ok ⟨0, "John", "john@example.com"⟩ ∧
    Hotel.get_room exOverlap 101 = .ok 0 ∧
    (5 : Int) ≤ 5 ∧
    raisesConflict (HotelService.create_booking exOverlap 0 101 5 5).1 =
      true ∧
    raisesInvalidOp (HotelService.create_booking exOverlap 0 101 5 5).1 =
      false :=
  ⟨rfl, rfl, by decide, rfl, rfl⟩

/-- C10 (amended): with guest and room present and `check_out ≤ check_in`,
`create_booking` raises `BookingConflict` when the degenerate interval
overlaps an active same-room booking and otherwise `InvalidOperation` from
the `Booking` constructor; either way no booking is inserted, and every
booking stored in any reachable state satisfies `check_in < check_out`. -/
theorem C10_degenerate_interval (s : Hotel) (g : Nat) (rn : Int)
    (ci co : Int) (gg : Guest) (ref : Nat)
    (hg : HotelService.get_guest s g = .ok gg)
    (hr : Hotel.get_room s rn = .ok ref) (hco : co ≤ ci) :
    ((HotelService.room_is_available s (heapGet s ref) ci co = false →
        raisesConflict
          (HotelService.create_booking s g rn ci co).1 = true) ∧
     (HotelService.room_is_available s (heapGet s ref) ci co = true →
        raisesInvalidOp
          (HotelService.create_booking s g rn ci co).1 = true) ∧
     (HotelService.create_booking s g rn ci co).2 = s) ∧
    (∀ s2, Reachable s2 → ∀ b ∈ s2.bookings, b.check_in < b.check_out) := by
  constructor
  · rw [create_booking_eval s g rn ci co gg ref hg hr]
    refine ⟨?_, ?_, ?_⟩
    · intro hav
      rw [if_pos hav]
      rfl
    · intro hav
      rw [if_neg (by simp [hav]), if_pos hco]
      rfl
    · by_cases hav :
        HotelService.room_is_available s (heapGet s ref) ci co = false
      · rw [if_pos hav]
      · rw [if_neg hav, if_pos hco]
  · intro s2 h2
    exact reachable_booking_dates s2 h2

/-- Witness for C10's amended theorem at `exOverlap` with the degenerate
interval [5,5), and the invariant instantiated at the freshly initialised
hotel. -/
theorem C10_degenerate_interval_witness :
    raisesConflict (HotelService.create_booking exOverlap 0 101 5 5).1 =
        true ∧
      (HotelService.create_booking exOverlap 0 101 5 5).2 = exOverlap ∧
      (∀ b ∈ exEmpty.bookings, b.check_in < b.check_out) := by
  have h := C10_degenerate_interval exOverlap 0 101 5 5
    ⟨0, "John", "john@example.com"⟩ 0 rfl rfl (by decide)
  exact ⟨h.1.1 (by decide), h.1.2.2,
    h.2 exEmpty (Reachable.init "Luxury Hotel" exEmpty rfl)⟩
